import Mathlib

/-!
Shallow embedding of `src/vmware_task.py`: a diagnostic utility with two
platform implementations (`WindowsImplementation`, `LinuxMacImplementation`)
of four operations, and an orchestrator `run_tasks`.

External effects (the filesystem predicates, `open`, `socket.gethostbyaddr`,
`requests.get`, the `ping` utility, process spawning) are modelled by an
explicit environment `Env` of outcome oracles.  Each operation returns its
Python result as `Except PyExc Bool` (`.ok b` models `return b`; `.error e`
models a Python exception of class `e` escaping the method), together with
the updated file store where relevant and the ordered list of external
effects it attempted.  Logging calls in the source have no observable
effect beyond the log and are not modelled.
-/

/-- Python exception classes that can escape an operation of this program.
`osError` models the `raise OSError(...)` in `WindowsImplementation.create_text_file`;
`typeError` models the `TypeError` raised inside `subprocess.Popen` in
`WindowsImplementation.run_test_batch` (see there). -/
inductive PyExc where
  | osError
  | typeError
deriving DecidableEq

/-- Failure modes of `open(path, "w")` followed by `f.write("Hello")`.
Python's open mode `"w"` creates the file, or truncates an existing one;
it never raises `FileExistsError` (only mode `"x"` does).  So the possible
failures are `PermissionError` and other `OSError` subclasses. -/
inductive WriteErr where
  | permission
  | otherOs
deriving DecidableEq

/-- External effects attempted by an operation, in program order. -/
inductive Ev where
  | openWrite (target : String)
  | dnsLookup (addr : String)
  | httpGet (url : String)
  | pingProbe (cmd : String)
  | spawn (cmd : String)
deriving DecidableEq

/-- Outcome oracles for the host system: filesystem predicates and the
results the external calls would produce in this run.
 * `path_exists p`     : `os.path.exists(p)`
 * `access_w d`        : `os.access(d, os.W_OK)`
 * `path_isfile p`     : `os.path.isfile(p)`
 * `openW p`           : outcome of `open(p, "w")` + `write("Hello")`;
                         `none` is success (file created or truncated)
 * `gethostbyaddr a`   : `none` models `socket.error` (no PTR record);
                         `some h` is the hostname, the first component of
                         the triple `socket.gethostbyaddr` returns
 * `httpGet u`         : `none` models `requests.exceptions.RequestException`;
                         `some c` is a received response with status code `c`
                         (the 10-second timeout is an argument of the call,
                         its expiry surfaces as a `RequestException`, `none`)
 * `ping_exit a`       : exit status of the platform ping utility invoked
                         with a single packet for address `a` (the utility
                         is assumed present and to terminate normally)
 * `sh_exit f`         : exit status of `sh f`
 * `getcwd`            : `os.getcwd()` -/
structure Env where
  path_exists : String → Bool
  access_w : String → Bool
  path_isfile : String → Bool
  openW : String → Option WriteErr
  gethostbyaddr : String → Option String
  httpGet : String → Option Nat
  ping_exit : String → Nat
  sh_exit : String → Nat
  getcwd : String

/-- The file store: path to content, `none` when absent. -/
abbrev Files := String → Option String

/-- Index of the last `/` in a character list, if any. -/
def rfindSlash : List Char → Option Nat
  | [] => none
  | c :: cs =>
    match rfindSlash cs with
    | some i => some (i + 1)
    | none => if c = '/' then some 0 else none

/-- `os.path.dirname` for `/`-separated paths: everything up to and
including the last `/`, then trailing separators stripped unless the head
is all separators.  This matches `posixpath.dirname`, and `ntpath.dirname`
agrees on the `/`-separated paths used here (`/` is the Windows altsep). -/
def dirname (p : String) : String :=
  let cs := p.toList
  match rfindSlash cs with
  | none => ""
  | some i =>
    let head := cs.take (i + 1)
    if head.all (fun c => c = '/') then String.mk head
    else String.mk ((head.reverse.dropWhile (fun c => c = '/')).reverse)

/-- `pathlib.Path(a, b)` rendered with `/` separators (on Windows pathlib
renders `\` instead; the separator choice is uniform here and affects no
claim). -/
def pathJoin (a b : String) : String :=
  if a = "" then b
  else if a.toList.getLast? = some '/' then a ++ b
  else a ++ "/" ++ b

/-- `WindowsImplementation.validate_path` (vmware_task.py, lines 79-83):
true when the path exists and `os.path.dirname` of it is writable. -/
def WindowsImplementation.validate_path (env : Env) (file_path : String) : Bool :=
  if env.path_exists file_path then
    if env.access_w (dirname file_path) then true else false
  else false

/-- `WindowsImplementation.create_text_file` (lines 85-98).
When validation fails the source executes
`raise OSError("File path does not exist or no permissions to write")`,
modelled as `.error .osError`.  The write target is
`pathlib.Path(os.path.dirname(path), "Hello.txt")` - the parent of `path`,
not `path` itself.  The `except FileExistsError` branch (log, `return False`)
is unreachable because mode `"w"` never raises it (see `WriteErr`); every
write failure lands in `except OSError` (log, `return False`). -/
def WindowsImplementation.create_text_file (env : Env) (files : Files) (path : String) :
    Except PyExc Bool × Files × List Ev :=
  if !(WindowsImplementation.validate_path env path) then
    (.error .osError, files, [])
  else
    let file_name := pathJoin (dirname path) "Hello.txt"
    match env.openW file_name with
    | none =>
      (.ok true, fun q => if q = file_name then some "Hello" else files q,
        [.openWrite file_name])
    | some _ => (.ok false, files, [.openWrite file_name])

/-- `WindowsImplementation.ping_url` (lines 100-102):
`subprocess.call(["ping", "-n", "1", ip]) == 0`; `subprocess.call` returns
the child's exit status.  The event records the invoked command. -/
def WindowsImplementation.ping_url (env : Env) (ip : String) :
    Except PyExc Bool × List Ev :=
  let ret := env.ping_exit ip
  (.ok (ret == 0), [.pingProbe ("ping -n 1 " ++ ip)])

/-- `WindowsImplementation.request_and_get` (lines 104-119):
reverse-DNS lookup; on `socket.error` return False (no HTTP attempted);
otherwise GET `http://<hostname>`; any received response, whatever its
status code, yields True; a `RequestException` yields False. -/
def WindowsImplementation.request_and_get (env : Env) (ip : String) :
    Except PyExc Bool × List Ev :=
  match env.gethostbyaddr ip with
  | none => (.ok false, [.dnsLookup ip])
  | some dns_ptr0 =>
    match env.httpGet ("http://" ++ dns_ptr0) with
    | none => (.ok false, [.dnsLookup ip, .httpGet ("http://" ++ dns_ptr0)])
    | some _status => (.ok true, [.dnsLookup ip, .httpGet ("http://" ++ dns_ptr0)])

/-- `WindowsImplementation.run_test_batch` (lines 121-134).
When the file exists the source executes `subprocess.Popen(file_name, cwd)`;
the second positional parameter of `Popen` is `bufsize`, and `cwd` here is
the string `os.getcwd()`, so `Popen.__init__` raises
`TypeError("bufsize must be an integer")` before any process is spawned.
The surrounding `except subprocess.CalledProcessError` does not catch
`TypeError`, so it escapes; no spawn event occurs.  When the file does not
exist the source logs and returns False without touching `subprocess`. -/
def WindowsImplementation.run_test_batch (env : Env) (file_name : String) :
    Except PyExc Bool × List Ev :=
  let _cwd := env.getcwd
  if env.path_isfile file_name then
    (.error .typeError, [])
  else
    (.ok false, [])

/-- `LinuxMacImplementation.validate_path` (lines 142-145):
true iff the path exists; no writability test. -/
def LinuxMacImplementation.validate_path (env : Env) (file_path : String) : Bool :=
  if env.path_exists file_path then true else false

/-- `LinuxMacImplementation.create_text_file` (lines 147-166).
When validation fails: log, `return False`.  The write target is
`pathlib.Path(path, "Hello.txt")` - inside `path` itself.  The
`except FileExistsError` branch (log, `return True`) is unreachable with
mode `"w"` (see `WriteErr`); `except PermissionError` and `except OSError`
both log and `return False`. -/
def LinuxMacImplementation.create_text_file (env : Env) (files : Files) (path : String) :
    Except PyExc Bool × Files × List Ev :=
  if !(LinuxMacImplementation.validate_path env path) then
    (.ok false, files, [])
  else
    let file_name := pathJoin path "Hello.txt"
    match env.openW file_name with
    | none =>
      (.ok true, fun q => if q = file_name then some "Hello" else files q,
        [.openWrite file_name])
    | some .permission => (.ok false, files, [.openWrite file_name])
    | some .otherOs => (.ok false, files, [.openWrite file_name])

/-- `LinuxMacImplementation.ping_url` (lines 168-172):
`response = os.system("ping -c 1 " + str(ip))`; True iff `response == 0`.
`os.system` returns the wait status, which for a normal exit is
256 * (exit status); it is 0 exactly when the utility exited with status 0. -/
def LinuxMacImplementation.ping_url (env : Env) (ip : String) :
    Except PyExc Bool × List Ev :=
  let response := 256 * env.ping_exit ip
  if response = 0 then (.ok true, [.pingProbe ("ping -c 1 " ++ ip)])
  else (.ok false, [.pingProbe ("ping -c 1 " ++ ip)])

/-- `LinuxMacImplementation.request_and_get` (lines 174-189): textually
identical to the Windows variant's body. -/
def LinuxMacImplementation.request_and_get (env : Env) (ip : String) :
    Except PyExc Bool × List Ev :=
  match env.gethostbyaddr ip with
  | none => (.ok false, [.dnsLookup ip])
  | some dns_ptr0 =>
    match env.httpGet ("http://" ++ dns_ptr0) with
    | none => (.ok false, [.dnsLookup ip, .httpGet ("http://" ++ dns_ptr0)])
    | some _status => (.ok true, [.dnsLookup ip, .httpGet ("http://" ++ dns_ptr0)])

/-- `LinuxMacImplementation.run_test_batch` (lines 191-202):
if the file exists, `os.system("sh " + file_name)` runs it (the status is
discarded) and True is returned; `os.system` does not raise `OSError`, so
the `except OSError` branch (log, `return False`) is unreachable.  If the
file does not exist: log, `return False`, nothing spawned. -/
def LinuxMacImplementation.run_test_batch (env : Env) (file_name : String) :
    Except PyExc Bool × List Ev :=
  if env.path_isfile file_name then
    let _resp := env.sh_exit file_name
    (.ok true, [.spawn ("sh " ++ file_name)])
  else
    (.ok false, [])

/-- `VmwareTask` (lines 26-44) wraps one implementation and forwards each
call to it.  The orchestrator observes only the returned value (or the
escaping exception), so the fields carry just the `Except` result. -/
structure VmwareTask where
  create_text_file : String → Except PyExc Bool
  ping_url : String → Except PyExc Bool
  request_and_get : String → Except PyExc Bool
  run_test_batch : String → Except PyExc Bool

/-- `VmwareTask(WindowsImplementation())` under a fixed environment and
initial file store (no later operation reads the file store, so fixing it
loses nothing observable by the orchestrator). -/
def windowsTask (env : Env) (files : Files) : VmwareTask where
  create_text_file := fun p => (WindowsImplementation.create_text_file env files p).1
  ping_url := fun ip => (WindowsImplementation.ping_url env ip).1
  request_and_get := fun ip => (WindowsImplementation.request_and_get env ip).1
  run_test_batch := fun f => (WindowsImplementation.run_test_batch env f).1

/-- `VmwareTask(LinuxMacImplementation())` under a fixed environment and
initial file store. -/
def linuxTask (env : Env) (files : Files) : VmwareTask where
  create_text_file := fun p => (LinuxMacImplementation.create_text_file env files p).1
  ping_url := fun ip => (LinuxMacImplementation.ping_url env ip).1
  request_and_get := fun ip => (LinuxMacImplementation.request_and_get env ip).1
  run_test_batch := fun f => (LinuxMacImplementation.run_test_batch env f).1

/-- Which of the four `VmwareTask` operations the orchestrator has invoked. -/
inductive OpCall where
  | create
  | ping
  | request
  | batch
deriving DecidableEq

/-- `run_tasks` (lines 205-235).  `success` starts True and is cleared by
each returned False; all four calls occur unconditionally in program order.
`run_tasks` contains no `try`, so an exception raised by a call escapes at
once and the remaining operations are not invoked; the second component
records the operations invoked, in order. -/
def run_tasks (task : VmwareTask) (file_path : String) (ip : String)
    (file_name : String) : Except PyExc Bool × List OpCall :=
  match task.create_text_file file_path with
  | .error e => (.error e, [.create])
  | .ok r1 =>
    let success := if !r1 then false else true
    match task.ping_url ip with
    | .error e => (.error e, [.create, .ping])
    | .ok r2 =>
      let success := if !r2 then false else success
      match task.request_and_get ip with
      | .error e => (.error e, [.create, .ping, .request])
      | .ok r3 =>
        let success := if !r3 then false else success
        match task.run_test_batch file_name with
        | .error e => (.error e, [.create, .ping, .request, .batch])
        | .ok r4 =>
          let success := if !r4 then false else success
          (.ok success, [.create, .ping, .request, .batch])

/-- The empty file store. -/
def files0 : Files := fun _ => none

/-- A host where no path exists, nothing is writable, DNS and HTTP fail,
and ping exits with status 1. -/
def env0 : Env where
  path_exists := fun _ => false
  access_w := fun _ => false
  path_isfile := fun _ => false
  openW := fun _ => none
  gethostbyaddr := fun _ => none
  httpGet := fun _ => none
  ping_exit := fun _ => 1
  sh_exit := fun _ => 0
  getcwd := "/"

/-- A host where the directories `/a` and `/a/b` exist and are writable,
writes succeed, `1.2.3.4` resolves to `host.example` whose HTTP GET yields
a 404 response, and ping exits with status 0. -/
def envOk : Env where
  path_exists := fun p => p == "/a" || p == "/a/b"
  access_w := fun p => p == "/a" || p == "/a/b"
  path_isfile := fun _ => false
  openW := fun _ => none
  gethostbyaddr := fun a => if a == "1.2.3.4" then some "host.example" else none
  httpGet := fun u => if u == "http://host.example" then some 404 else none
  ping_exit := fun _ => 0
  sh_exit := fun _ => 0
  getcwd := "/"

/-- A host where `/a/b` and `/b` exist, only `/a` is writable, and every
write attempt fails with `PermissionError`. -/
def envC5 : Env where
  path_exists := fun p => p == "/a/b" || p == "/b"
  access_w := fun p => p == "/a"
  path_isfile := fun _ => false
  openW := fun _ => some WriteErr.permission
  gethostbyaddr := fun _ => none
  httpGet := fun _ => none
  ping_exit := fun _ => 1
  sh_exit := fun _ => 0
  getcwd := "/"

/-- A file store in which the marker `/a/Hello.txt` already exists. -/
def filesC6 : Files := fun q => if q = "/a/Hello.txt" then some "Hello" else none

/-- Claim C1, counterexample: with the repository's own Windows
implementation on a host where the supplied path fails validation,
`run_tasks` does not run every check once - the `OSError` raised by
`create_text_file` escapes, only the first operation is ever invoked, and
no boolean is returned. -/
theorem run_tasks_create_raise_propagates :
    run_tasks (windowsTask env0 files0) "/nope" "1.2.3.4" "t.bat" =
      (Except.error PyExc.osError, [OpCall.create]) := rfl

/-- Claim C1 (amended): whenever each of the four operations returns a
boolean rather than raising, `run_tasks` invokes all four exactly once, in
the fixed order create, ping, request, batch, never short-circuiting after
a returned Failure, and returns true iff all four returned Success. -/
theorem run_tasks_all_ok_spec (task : VmwareTask) (p i f : String)
    (r1 r2 r3 r4 : Bool)
    (h1 : task.create_text_file p = .ok r1) (h2 : task.ping_url i = .ok r2)
    (h3 : task.request_and_get i = .ok r3) (h4 : task.run_test_batch f = .ok r4) :
    run_tasks task p i f =
      (.ok (r1 && r2 && r3 && r4),
        [OpCall.create, OpCall.ping, OpCall.request, OpCall.batch]) := by
  unfold run_tasks
  rw [h1, h2, h3, h4]
  cases r1 <;> cases r2 <;> cases r3 <;> cases r4 <;> rfl

/-- Witness for `run_tasks_all_ok_spec`: the POSIX implementation on the
empty host `env0`, where all four operations return Failure and the
aggregate result is `false` with all four operations invoked in order. -/
theorem run_tasks_all_ok_spec_witness :
    run_tasks (linuxTask env0 files0) "/nope" "1.2.3.4" "t.bat" =
      (Except.ok false,
        [OpCall.create, OpCall.ping, OpCall.request, OpCall.batch]) :=
  run_tasks_all_ok_spec (linuxTask env0 files0) "/nope" "1.2.3.4" "t.bat"
    false false false false rfl rfl rfl rfl

/-- Claim C2, counterexample: on a host where the supplied path does not
exist, the Windows `create_text_file` does not return a boolean at all -
the `raise OSError` escapes the method boundary. -/
theorem windows_create_raises_on_invalid_path :
    (WindowsImplementation.create_text_file env0 files0 "/nope").1 =
      Except.error PyExc.osError ∧
    (WindowsImplementation.create_text_file env0 files0 "/nope").1 ≠ Except.ok true ∧
    (WindowsImplementation.create_text_file env0 files0 "/nope").1 ≠ Except.ok false :=
  ⟨rfl, fun h => Except.noConfusion h, fun h => Except.noConfusion h⟩

/-- Claim C2 (amended): the four POSIX operations and the Windows
`ping_url` and `request_and_get` always return a boolean; the Windows
`create_text_file` raises `OSError` exactly when its path validation
fails, and the Windows `run_test_batch` raises an uncaught `TypeError`
(from `subprocess.Popen(file_name, cwd)`, which passes the working
directory as `bufsize`) exactly when the batch file exists. -/
theorem ops_exception_boundary_spec (env : Env) (files : Files) (p ip f : String) :
    (∃ b, (LinuxMacImplementation.create_text_file env files p).1 = Except.ok b) ∧
    (∃ b, (LinuxMacImplementation.ping_url env ip).1 = Except.ok b) ∧
    (∃ b, (LinuxMacImplementation.request_and_get env ip).1 = Except.ok b) ∧
    (∃ b, (LinuxMacImplementation.run_test_batch env f).1 = Except.ok b) ∧
    (∃ b, (WindowsImplementation.ping_url env ip).1 = Except.ok b) ∧
    (∃ b, (WindowsImplementation.request_and_get env ip).1 = Except.ok b) ∧
    ((WindowsImplementation.create_text_file env files p).1 = Except.error PyExc.osError ↔
      WindowsImplementation.validate_path env p = false) ∧
    ((WindowsImplementation.run_test_batch env f).1 = Except.error PyExc.typeError ↔
      env.path_isfile f = true) := by
  refine ⟨?_, ?_, ?_, ?_, ?_, ?_, ?_, ?_⟩
  · cases hv : LinuxMacImplementation.validate_path env p with
    | false => exact ⟨false, by simp [LinuxMacImplementation.create_text_file, hv]⟩
    | true =>
      cases ho : env.openW (pathJoin p "Hello.txt") with
      | none => exact ⟨true, by simp [LinuxMacImplementation.create_text_file, hv, ho]⟩
      | some e =>
        exact ⟨false, by
          cases e <;> simp [LinuxMacImplementation.create_text_file, hv, ho]⟩
  · by_cases h : 256 * env.ping_exit ip = 0
    · exact ⟨true, by simp [LinuxMacImplementation.ping_url, h]⟩
    · exact ⟨false, by simp [LinuxMacImplementation.ping_url, h]⟩
  · cases hd : env.gethostbyaddr ip with
    | none => exact ⟨false, by simp [LinuxMacImplementation.request_and_get, hd]⟩
    | some host =>
      cases hh : env.httpGet ("http://" ++ host) with
      | none =>
        exact ⟨false, by simp [LinuxMacImplementation.request_and_get, hd, hh]⟩
      | some c =>
        exact ⟨true, by simp [LinuxMacImplementation.request_and_get, hd, hh]⟩
  · cases h : env.path_isfile f with
    | false => exact ⟨false, by simp [LinuxMacImplementation.run_test_batch, h]⟩
    | true => exact ⟨true, by simp [LinuxMacImplementation.run_test_batch, h]⟩
  · exact ⟨env.ping_exit ip == 0, rfl⟩
  · cases hd : env.gethostbyaddr ip with
    | none => exact ⟨false, by simp [WindowsImplementation.request_and_get, hd]⟩
    | some host =>
      cases hh : env.httpGet ("http://" ++ host) with
      | none =>
        exact ⟨false, by simp [WindowsImplementation.request_and_get, hd, hh]⟩
      | some c =>
        exact ⟨true, by simp [WindowsImplementation.request_and_get, hd, hh]⟩
  · cases hv : WindowsImplementation.validate_path env p with
    | false => simp [WindowsImplementation.create_text_file, hv]
    | true =>
      cases ho : env.openW (pathJoin (dirname p) "Hello.txt") with
      | none => simp [WindowsImplementation.create_text_file, hv, ho]
      | some e => simp [WindowsImplementation.create_text_file, hv, ho]
  · cases h : env.path_isfile f with
    | false => simp [WindowsImplementation.run_test_batch, h]
    | true => simp [WindowsImplementation.run_test_batch, h]

/-- Claim C3, counterexample: on a host where the directory `/a/b` exists
and is writable, the Windows `create_text_file("/a/b")` returns Success
yet no `Hello.txt` exists in `/a/b` afterward - the file went to the
parent directory `/a` instead. -/
theorem windows_marker_in_parent_dir :
    envOk.path_exists "/a/b" = true ∧ envOk.access_w "/a/b" = true ∧
    (WindowsImplementation.create_text_file envOk files0 "/a/b").1 = Except.ok true ∧
    (WindowsImplementation.create_text_file envOk files0 "/a/b").2.1 "/a/b/Hello.txt" =
      none ∧
    (WindowsImplementation.create_text_file envOk files0 "/a/b").2.1 "/a/Hello.txt" =
      some "Hello" :=
  ⟨rfl, rfl, rfl, rfl, rfl⟩

/-- Claim C3 (amended): when `create_text_file` returns Success, a file
named `Hello.txt` with content `Hello` exists afterward - in the
caller-supplied directory itself for the POSIX variant, but in
`os.path.dirname` of the supplied path (its parent) for the Windows
variant; in each variant no path other than that one target is touched. -/
theorem marker_file_location_spec (env : Env) (files : Files) (p q : String) :
    ((LinuxMacImplementation.create_text_file env files p).1 = Except.ok true →
      (LinuxMacImplementation.create_text_file env files p).2.1
          (pathJoin p "Hello.txt") = some "Hello" ∧
      (q ≠ pathJoin p "Hello.txt" →
        (LinuxMacImplementation.create_text_file env files p).2.1 q = files q)) ∧
    ((WindowsImplementation.create_text_file env files p).1 = Except.ok true →
      (WindowsImplementation.create_text_file env files p).2.1
          (pathJoin (dirname p) "Hello.txt") = some "Hello" ∧
      (q ≠ pathJoin (dirname p) "Hello.txt" →
        (WindowsImplementation.create_text_file env files p).2.1 q = files q)) := by
  constructor
  · cases hv : LinuxMacImplementation.validate_path env p with
    | false =>
      intro h; simp [LinuxMacImplementation.create_text_file, hv] at h
    | true =>
      cases ho : env.openW (pathJoin p "Hello.txt") with
      | none =>
        intro _
        constructor
        · simp [LinuxMacImplementation.create_text_file, hv, ho]
        · intro hq
          simp [LinuxMacImplementation.create_text_file, hv, ho, hq]
      | some e =>
        intro h
        cases e <;> simp [LinuxMacImplementation.create_text_file, hv, ho] at h
  · cases hv : WindowsImplementation.validate_path env p with
    | false =>
      intro h; simp [WindowsImplementation.create_text_file, hv] at h
    | true =>
      cases ho : env.openW (pathJoin (dirname p) "Hello.txt") with
      | none =>
        intro _
        constructor
        · simp [WindowsImplementation.create_text_file, hv, ho]
        · intro hq
          simp [WindowsImplementation.create_text_file, hv, ho, hq]
      | some e =>
        intro h
        simp [WindowsImplementation.create_text_file, hv, ho] at h

/-- Witness for `marker_file_location_spec`: the POSIX variant on `envOk`
at `/a` writes `Hello` to `/a/Hello.txt` and leaves `/zz` untouched. -/
theorem marker_file_location_spec_witness :
    (LinuxMacImplementation.create_text_file envOk files0 "/a").2.1
        (pathJoin "/a" "Hello.txt") = some "Hello" ∧
    (LinuxMacImplementation.create_text_file envOk files0 "/a").2.1 "/zz" =
      files0 "/zz" :=
  ⟨((marker_file_location_spec envOk files0 "/a" "/zz").1 rfl).1,
   ((marker_file_location_spec envOk files0 "/a" "/zz").1 rfl).2 (by decide)⟩

/-- Claim C4, counterexample: on a host where `/missing` names no existing
directory, the Windows `create_text_file` does not return Failure - it
raises `OSError`. -/
theorem windows_create_nonexistent_raises :
    env0.path_exists "/missing" = false ∧
    (WindowsImplementation.create_text_file env0 files0 "/missing").1 ≠
      Except.ok false ∧
    (WindowsImplementation.create_text_file env0 files0 "/missing").1 =
      Except.error PyExc.osError :=
  ⟨rfl, fun h => Except.noConfusion h, rfl⟩

/-- Claim C4 (amended): for a path naming a non-existent directory, the
POSIX `create_text_file` returns Failure, while the Windows variant raises
`OSError`; in both variants the file store is unchanged and no write is
attempted. -/
theorem create_nonexistent_dir_spec (env : Env) (files : Files) (p : String)
    (h : env.path_exists p = false) :
    (LinuxMacImplementation.create_text_file env files p).1 = Except.ok false ∧
    (LinuxMacImplementation.create_text_file env files p).2.1 = files ∧
    (LinuxMacImplementation.create_text_file env files p).2.2 = [] ∧
    (WindowsImplementation.create_text_file env files p).1 =
      Except.error PyExc.osError ∧
    (WindowsImplementation.create_text_file env files p).2.1 = files ∧
    (WindowsImplementation.create_text_file env files p).2.2 = [] := by
  have hv1 : LinuxMacImplementation.validate_path env p = false := by
    simp [LinuxMacImplementation.validate_path, h]
  have hv2 : WindowsImplementation.validate_path env p = false := by
    simp [WindowsImplementation.validate_path, h]
  refine ⟨?_, ?_, ?_, ?_, ?_, ?_⟩ <;>
    simp [LinuxMacImplementation.create_text_file,
      WindowsImplementation.create_text_file, hv1, hv2]

/-- Witness for `create_nonexistent_dir_spec` at `env0` and `/missing`. -/
theorem create_nonexistent_dir_spec_witness :
    (LinuxMacImplementation.create_text_file env0 files0 "/missing").1 =
      Except.ok false ∧
    (LinuxMacImplementation.create_text_file env0 files0 "/missing").2.1 = files0 ∧
    (LinuxMacImplementation.create_text_file env0 files0 "/missing").2.2 = [] ∧
    (WindowsImplementation.create_text_file env0 files0 "/missing").1 =
      Except.error PyExc.osError ∧
    (WindowsImplementation.create_text_file env0 files0 "/missing").2.1 = files0 ∧
    (WindowsImplementation.create_text_file env0 files0 "/missing").2.2 = [] :=
  create_nonexistent_dir_spec env0 files0 "/missing" rfl

/-- Claim C5, counterexample: the POSIX variant attempts the write on a
host where the existing directory `/b` is not writable (it never consults
`os.access`), and the Windows variant attempts the write on `/a/b` even
though `/a/b` itself is not writable (it consults `os.access` on the
parent `/a` instead). -/
theorem posix_write_without_permission_check :
    envC5.path_exists "/b" = true ∧ envC5.access_w "/b" = false ∧
    (LinuxMacImplementation.create_text_file envC5 files0 "/b").2.2 =
      [Ev.openWrite "/b/Hello.txt"] ∧
    envC5.path_exists "/a/b" = true ∧ envC5.access_w "/a/b" = false ∧
    (WindowsImplementation.create_text_file envC5 files0 "/a/b").2.2 =
      [Ev.openWrite "/a/Hello.txt"] :=
  ⟨rfl, rfl, rfl, rfl, rfl, rfl⟩

/-- Claim C5 (amended): the Windows variant attempts the write exactly
when the supplied path exists and its parent directory (`os.path.dirname`)
is writable; the POSIX variant attempts the write exactly when the
supplied path exists, performing no write-permission check beforehand
(permission failures are caught during the write instead). -/
theorem write_precondition_spec (env : Env) (files : Files) (p : String) :
    (LinuxMacImplementation.create_text_file env files p).2.2 =
      (if env.path_exists p then [Ev.openWrite (pathJoin p "Hello.txt")] else []) ∧
    (WindowsImplementation.create_text_file env files p).2.2 =
      (if env.path_exists p && env.access_w (dirname p) then
        [Ev.openWrite (pathJoin (dirname p) "Hello.txt")] else []) := by
  constructor
  · cases he : env.path_exists p with
    | false =>
      simp [LinuxMacImplementation.create_text_file,
        LinuxMacImplementation.validate_path, he]
    | true =>
      cases ho : env.openW (pathJoin p "Hello.txt") with
      | none =>
        simp [LinuxMacImplementation.create_text_file,
          LinuxMacImplementation.validate_path, he, ho]
      | some e =>
        cases e <;>
          simp [LinuxMacImplementation.create_text_file,
            LinuxMacImplementation.validate_path, he, ho]
  · cases he : env.path_exists p with
    | false =>
      simp [WindowsImplementation.create_text_file,
        WindowsImplementation.validate_path, he]
    | true =>
      cases ha : env.access_w (dirname p) with
      | false =>
        simp [WindowsImplementation.create_text_file,
          WindowsImplementation.validate_path, he, ha]
      | true =>
        cases ho : env.openW (pathJoin (dirname p) "Hello.txt") with
        | none =>
          simp [WindowsImplementation.create_text_file,
            WindowsImplementation.validate_path, he, ha, ho]
        | some e =>
          simp [WindowsImplementation.create_text_file,
            WindowsImplementation.validate_path, he, ha, ho]

/-- Claim C6: evaluation of both variants at the claimed failing input.
The marker `/a/Hello.txt` already exists, the directories are valid and
writable, and `open(_, "w")` truncates the existing file and succeeds (the
source's `except FileExistsError` handlers are dead code under mode `"w"`):
the Windows variant returns Success, not the Failure the claim states;
the POSIX variant returns Success as claimed, by overwriting. -/
theorem existing_marker_overwrite_behavior :
    filesC6 "/a/Hello.txt" = some "Hello" ∧
    (WindowsImplementation.create_text_file envOk filesC6 "/a/b").1 = Except.ok true ∧
    (LinuxMacImplementation.create_text_file envOk filesC6 "/a").1 = Except.ok true ∧
    (WindowsImplementation.create_text_file envOk filesC6 "/a/b").2.2 =
      [Ev.openWrite "/a/Hello.txt"] ∧
    (LinuxMacImplementation.create_text_file envOk filesC6 "/a").2.2 =
      [Ev.openWrite "/a/Hello.txt"] :=
  ⟨rfl, rfl, rfl, rfl, rfl⟩

/-- Claim C7: in both variants, a failed reverse-DNS lookup yields Failure
with no HTTP request attempted; a successful lookup to `host` is followed
by exactly one GET of `http://host`, which yields Success for any received
response regardless of status code and Failure exactly when the request
raises a transport exception. -/
theorem request_and_get_spec (env : Env) (ip host : String) :
    (env.gethostbyaddr ip = none →
      WindowsImplementation.request_and_get env ip =
        (Except.ok false, [Ev.dnsLookup ip]) ∧
      LinuxMacImplementation.request_and_get env ip =
        (Except.ok false, [Ev.dnsLookup ip])) ∧
    (env.gethostbyaddr ip = some host →
      (env.httpGet ("http://" ++ host) = none →
        WindowsImplementation.request_and_get env ip =
          (Except.ok false, [Ev.dnsLookup ip, Ev.httpGet ("http://" ++ host)]) ∧
        LinuxMacImplementation.request_and_get env ip =
          (Except.ok false, [Ev.dnsLookup ip, Ev.httpGet ("http://" ++ host)])) ∧
      (∀ status, env.httpGet ("http://" ++ host) = some status →
        WindowsImplementation.request_and_get env ip =
          (Except.ok true, [Ev.dnsLookup ip, Ev.httpGet ("http://" ++ host)]) ∧
        LinuxMacImplementation.request_and_get env ip =
          (Except.ok true, [Ev.dnsLookup ip, Ev.httpGet ("http://" ++ host)]))) := by
  refine ⟨fun hd => ?_, fun hd => ⟨fun hh => ?_, fun status hh => ?_⟩⟩ <;>
    exact ⟨by simp [WindowsImplementation.request_and_get, *],
      by simp [LinuxMacImplementation.request_and_get, *]⟩

/-- Witness for `request_and_get_spec`: on `envOk`, `1.2.3.4` resolves to
`host.example`, the GET receives a 404 response, and the operation
nevertheless returns Success. -/
theorem request_and_get_spec_witness :
    WindowsImplementation.request_and_get envOk "1.2.3.4" =
      (Except.ok true,
        [Ev.dnsLookup "1.2.3.4", Ev.httpGet ("http://" ++ "host.example")]) :=
  (((request_and_get_spec envOk "1.2.3.4" "host.example").2 rfl).2 404 rfl).1

/-- Claim C8: when the batch-file path names no existing file, both
variants return Failure with an empty effect trace - in particular no
child process is spawned. -/
theorem run_test_batch_missing_file_spec (env : Env) (f : String)
    (h : env.path_isfile f = false) :
    WindowsImplementation.run_test_batch env f = (Except.ok false, []) ∧
    LinuxMacImplementation.run_test_batch env f = (Except.ok false, []) := by
  constructor <;>
    simp [WindowsImplementation.run_test_batch,
      LinuxMacImplementation.run_test_batch, h]

/-- Witness for `run_test_batch_missing_file_spec` at `env0`, where no
file exists. -/
theorem run_test_batch_missing_file_spec_witness :
    WindowsImplementation.run_test_batch env0 "t.bat" = (Except.ok false, []) ∧
    LinuxMacImplementation.run_test_batch env0 "t.bat" = (Except.ok false, []) :=
  run_test_batch_missing_file_spec env0 "t.bat" rfl

/-- Claim C9: both variants invoke the platform ping utility with a single
packet (`-n 1` on Windows via `subprocess.call`, `-c 1` on POSIX via
`os.system`) and return Success iff the utility's exit status is zero -
Failure iff it is nonzero. -/
theorem ping_exit_status_spec (env : Env) (ip : String) :
    ((WindowsImplementation.ping_url env ip).1 = Except.ok true ↔
      env.ping_exit ip = 0) ∧
    ((LinuxMacImplementation.ping_url env ip).1 = Except.ok true ↔
      env.ping_exit ip = 0) ∧
    ((WindowsImplementation.ping_url env ip).1 = Except.ok false ↔
      env.ping_exit ip ≠ 0) ∧
    ((LinuxMacImplementation.ping_url env ip).1 = Except.ok false ↔
      env.ping_exit ip ≠ 0) ∧
    (WindowsImplementation.ping_url env ip).2 =
      [Ev.pingProbe ("ping -n 1 " ++ ip)] ∧
    (LinuxMacImplementation.ping_url env ip).2 =
      [Ev.pingProbe ("ping -c 1 " ++ ip)] := by
  by_cases h : env.ping_exit ip = 0
  · have h2 : 256 * env.ping_exit ip = 0 := by omega
    simp [WindowsImplementation.ping_url, LinuxMacImplementation.ping_url, h, h2]
  · have h2 : 256 * env.ping_exit ip ≠ 0 := by omega
    simp [WindowsImplementation.ping_url, LinuxMacImplementation.ping_url, h, h2]

/-- Claim C10: the Windows and POSIX variants of `request_and_get` are
extensionally equal - for every address and every outcome of the DNS and
HTTP effects they return the same result and attempt the same external
requests in the same order. -/
theorem request_and_get_variants_equal (env : Env) (ip : String) :
    WindowsImplementation.request_and_get env ip =
      LinuxMacImplementation.request_and_get env ip := rfl
